import Mathlib

/-!
Verification of the `tenable/sc/was_scan.py` module of pyTenable: a shallow
embedding of the WAS-scan request builder and the CRUD surface of
`WasScanAPI`, followed by theorems about the claims of the specification.

Python values reaching this module are modelled by the inductive `PyVal`;
Python exceptions raised by the module are modelled by `PyErr`; fallible
Python code is modelled in the `Except PyErr` monad.  Dictionaries built by
the module are modelled as association lists in insertion order (all keys
the module ever inserts into one dictionary are distinct, so insertion
order and Python dict order agree).
-/

set_option autoImplicit false

namespace WasScan

/-- A Python value, as far as this module can observe one: strings, ints,
bools (a distinct constructor, with the `bool <: int` subtyping encoded in
`isinstance`), `None`, lists, tuples and string-keyed dicts. -/
inductive PyVal where
  | str (s : String)
  | int (n : Int)
  | bool (b : Bool)
  | none
  | list (xs : List PyVal)
  | tuple (xs : List PyVal)
  | dict (xs : List (String × PyVal))

/-- Exceptions the module can raise. -/
inductive PyErr where
  | keyError (key : String)
  | typeError (field : String)
  | unexpectedValue (field : String) (choices : List String)
  | valueError (msg : String)
  | indexError
  deriving DecidableEq

/-- The Python types this module passes to `_check`. -/
inductive PyType where
  | str
  | int
  deriving DecidableEq

/-- Python `isinstance`, restricted to the two types this module checks
against.  `bool` is a subclass of `int` in Python, so a bool passes an
`int` check. -/
def isinstance : PyVal → PyType → Bool
  | .str _, .str => true
  | .int _, .int => true
  | .bool _, .int => true
  | _, _ => false

/-- Python truthiness of a value (`if v:`). -/
def pyTruthy : PyVal → Bool
  | .str s => s != ""
  | .int n => n != 0
  | .bool b => b
  | .none => false
  | .list xs => !xs.isEmpty
  | .tuple xs => !xs.isEmpty
  | .dict xs => !xs.isEmpty

mutual

/-- Python `repr`, for the value shapes of `PyVal`. -/
def pyRepr : PyVal → String
  | .str s => "'" ++ s ++ "'"
  | .int n => toString n
  | .bool b => if b then "True" else "False"
  | .none => "None"
  | .list xs => "[" ++ pyReprSep xs ++ "]"
  | .tuple [x] => "(" ++ pyRepr x ++ ",)"
  | .tuple xs => "(" ++ pyReprSep xs ++ ")"
  | .dict xs => "\x7b" ++ pyReprPairs xs ++ "\x7d"

/-- Comma-separated `repr`s of the elements of a list. -/
def pyReprSep : List PyVal → String
  | [] => ""
  | [x] => pyRepr x
  | x :: xs => pyRepr x ++ ", " ++ pyReprSep xs

/-- Comma-separated `repr`s of the entries of a dict. -/
def pyReprPairs : List (String × PyVal) → String
  | [] => ""
  | [(k, v)] => "'" ++ k ++ "': " ++ pyRepr v
  | (k, v) :: xs => "'" ++ k ++ "': " ++ pyRepr v ++ ", " ++ pyReprPairs xs

end

/-- Python `str(v)`: the string itself for strings, `repr` otherwise
(decimal form for ints, `True`/`False` for bools). -/
def pyStr : PyVal → String
  | .str s => s
  | v => pyRepr v

/-- First-match lookup of a key in an association list: `kwargs[k]` /
`k in kwargs` combined into one `Option`.  Python dicts have unique keys,
so first-match agrees with dict lookup on every list that images a dict. -/
def pyLookup (k : String) : List (String × PyVal) → Option PyVal
  | [] => Option.none
  | (k', v) :: rest => if k' = k then some v else pyLookup k rest

/-- Boolean membership of a string in a string list (Python `in`). -/
def strMem (s : String) : List String → Bool
  | [] => false
  | c :: cs => if c = s then true else strMem s cs

/-- Python `len(v)` for sized values; `TypeError` otherwise. -/
def pyLen : PyVal → Except PyErr Nat
  | .str s => .ok s.length
  | .list xs => .ok xs.length
  | .tuple xs => .ok xs.length
  | .dict xs => .ok xs.length
  | _ => .error (.typeError "len")

/-- Python iteration `for x in v` over the module's sized values. -/
def pyIter : PyVal → Except PyErr (List PyVal)
  | .list xs => .ok xs
  | .tuple xs => .ok xs
  | .str s => .ok (s.data.map fun c => .str (String.singleton c))
  | .dict xs => .ok (xs.map fun p => .str p.1)
  | _ => .error (.typeError "iter")

/-- Python `v[i]` for a natural index. -/
def pySubscript (v : PyVal) (i : Nat) : Except PyErr PyVal :=
  match v with
  | .list xs => match xs.get? i with
    | some x => .ok x
    | Option.none => .error .indexError
  | .tuple xs => match xs.get? i with
    | some x => .ok x
    | Option.none => .error .indexError
  | .str s => match s.data.get? i with
    | some c => .ok (.str (String.singleton c))
    | Option.none => .error .indexError
  | _ => .error (.typeError "subscript")

/-- Python `v[k]` for a string key on a decoded JSON body. -/
def pyGetItemStr (v : PyVal) (k : String) : Except PyErr PyVal :=
  match v with
  | .dict xs => match pyLookup k xs with
    | some r => .ok r
    | Option.none => .error (.keyError k)
  | _ => .error (.typeError k)

/-- Modelled from the spec: `SCEndpoint._check` is defined in
`tenable/sc/base.py`, which is not part of this excerpt (`src/` contains
only its callers).  Per the spec, string/int fields are "validated to be of
string type; passed through unchanged", enumerated fields are "validated
against a fixed closed set of permitted values; an out-of-set value fails
with a validation error naming the field and the allowed set", and
"validation errors (bad type, bad enum value, ...) are raised
synchronously, before any network I/O, and must name the offending field".
So `_check` fails with a `TypeError` naming the field when the value is not
of the expected Python type, fails with an `UnexpectedValueError` naming
the field and the choices when a choices list is given and the value is not
one of them, and otherwise returns the value unchanged. -/
def _check (field : String) (v : PyVal) (t : PyType) (choices : Option (List String)) :
    Except PyErr PyVal :=
  if isinstance v t then
    match choices with
    | Option.none => .ok v
    | some cs =>
      match v with
      | .str s => if strMem s cs then .ok v else .error (.unexpectedValue field cs)
      | _ => .error (.unexpectedValue field cs)
  else .error (.typeError field)

/-- `_to_boolean_string` of `was_scan.py`: `"true" if boolean_value else
"false"`. -/
def _to_boolean_string (boolean_value : Bool) : String :=
  if boolean_value then "true" else "false"

/-- The permitted `schedule_type` values (`was_scan.py` line 78). -/
def scheduleChoices : List String := ["ical", "never", "rollover", "template"]

/-- The permitted `reportSource` values (`was_scan.py` lines 88-89). -/
def reportSourceChoices : List String :=
  ["cumulative", "patched", "individual", "lce", "archive", "mobile"]

/-- The permitted `timeoutAction` values (`was_scan.py` line 121). -/
def timeoutActionChoices : List String := ["discard", "import", "rollover"]

/-- The permitted `rolloverType` values (`was_scan.py` line 131). -/
def rolloverTypeChoices : List String := ["nextDay", "template"]

/-- Lines 50-51: `if kwargs["name"]: request["name"] = self._check("name",
kwargs["name"], str)`.  An absent key raises `KeyError`; a falsy value
(empty string, 0, ...) silently contributes nothing. -/
def namePart (o : Option PyVal) : Except PyErr (List (String × PyVal)) :=
  match o with
  | Option.none => .error (.keyError "name")
  | some v =>
    if pyTruthy v then do
      let nv ← _check "name" v .str Option.none
      pure [("name", nv)]
    else pure []

/-- Lines 53-57 and 133-134: `if "f" in kwargs: request["f"] =
self._check("f", kwargs["f"], str)` for `type`, `description`, `urlList`. -/
def strPart (field : String) (o : Option PyVal) : Except PyErr (List (String × PyVal)) :=
  match o with
  | Option.none => pure []
  | some v => do
    let sv ← _check field v .str Option.none
    pure [(field, sv)]

/-- Lines 59-67: `request["repository"] = {"id": str(kwargs["repository_id"])}`
(and the same for `zone`/`zone_id`). -/
def idWrapPart (outKey : String) (o : Option PyVal) : Except PyErr (List (String × PyVal)) :=
  match o with
  | Option.none => pure []
  | some v => pure [(outKey, .dict [("id", .str (pyStr v))])]

/-- Lines 69-70, 111-115, 124-125: `request["f"] =
_to_boolean_string(kwargs["f"])` for the four boolean fields.  The `if` in
`_to_boolean_string` is Python truthiness of the argument. -/
def boolPart (field : String) (o : Option PyVal) : Except PyErr (List (String × PyVal)) :=
  match o with
  | Option.none => pure []
  | some v => pure [(field, .str (_to_boolean_string (pyTruthy v)))]

/-- Lines 72-73 and 136-137: `request["f"] = str(kwargs["f"])` for
`classifyMitigatedAge` and `maxScanTime`. -/
def numStrPart (field : String) (o : Option PyVal) : Except PyErr (List (String × PyVal)) :=
  match o with
  | Option.none => pure []
  | some v => pure [(field, .str (pyStr v))]

/-- Lines 75-79: `request["schedule"] = {"type": self._check("schedule_type",
kwargs["schedule_type"], str, choices=[...])}`. -/
def schedulePart (o : Option PyVal) : Except PyErr (List (String × PyVal)) :=
  match o with
  | Option.none => pure []
  | some v => do
    let tv ← _check "schedule_type" v .str (some scheduleChoices)
    pure [("schedule", .dict [("type", tv)])]

/-- Lines 117-122 and 127-132: `request["f"] = self._check("f", kwargs["f"],
str, choices=...)` for `timeoutAction` and `rolloverType`. -/
def enumPart (field : String) (choices : List String) (o : Option PyVal) :
    Except PyErr (List (String × PyVal)) :=
  match o with
  | Option.none => pure []
  | some v => do
    let sv ← _check field v .str (some choices)
    pure [(field, sv)]

/-- Lines 84-91: the element-wise body of the `reports` list comprehension:
`{"id": self._check("report_id", report[0], int), "reportSource":
self._check("reportSource", report[1], str, choices=[...])}`. -/
def mapReports : List PyVal → Except PyErr (List PyVal)
  | [] => pure []
  | r :: rs => do
    let i ← pySubscript r 0
    let idv ← _check "report_id" i .int Option.none
    let s ← pySubscript r 1
    let sv ← _check "reportSource" s .str (some reportSourceChoices)
    let rest ← mapReports rs
    pure (.dict [("id", idv), ("reportSource", sv)] :: rest)

/-- Lines 81-91: `reports = kwargs["reports"]; if len(reports) > 0:
request["reports"] = [...]`. -/
def reportsPart (o : Option PyVal) : Except PyErr (List (String × PyVal)) :=
  match o with
  | Option.none => pure []
  | some v => do
    let n ← pyLen v
    if n > 0 then do
      let elems ← pyIter v
      let items ← mapReports elems
      pure [("reports", .list items)]
    else pure []

/-- Lines 96-99 and 105-108: the element-wise body of the `assets` /
`credentials` list comprehensions: `{"id": self._check(checkName, x, int)}`. -/
def mapIds (checkName : String) : List PyVal → Except PyErr (List PyVal)
  | [] => pure []
  | x :: xs => do
    let idv ← _check checkName x .int Option.none
    let rest ← mapIds checkName xs
    pure (.dict [("id", idv)] :: rest)

/-- Lines 93-109: `xs = kwargs[field]; if len(xs) > 0: request[field] =
[{"id": self._check(checkName, x, int)} for x in xs]`, with `field`/`checkName`
being `assets`/`asset` and `credentials`/`credentials`. -/
def idListPart (field checkName : String) (o : Option PyVal) :
    Except PyErr (List (String × PyVal)) :=
  match o with
  | Option.none => pure []
  | some v => do
    let n ← pyLen v
    if n > 0 then do
      let elems ← pyIter v
      let items ← mapIds checkName elems
      pure [(field, .list items)]
    else pure []

/-- The body of `WasScanAPI._build_creation_or_update_request`, as a function
of the eighteen keyword lookups it performs, in source order (lines 48-139).
Each `let`-step models one `if` block of the source; the final request dict
is the concatenation of the per-field fragments, which matches Python dict
insertion order because the inserted keys are pairwise distinct. -/
def buildCore (oName oType oDesc oRepo oZone oDhcp oAge oSched oReports oAssets
    oCreds oEmailL oEmailF oTimeout oVirtual oRollover oUrl oMax : Option PyVal) :
    Except PyErr (List (String × PyVal)) := do
  let p1 ← namePart oName
  let p2 ← strPart "type" oType
  let p3 ← strPart "description" oDesc
  let p4 ← idWrapPart "repository" oRepo
  let p5 ← idWrapPart "zone" oZone
  let p6 ← boolPart "dhcpTracking" oDhcp
  let p7 ← numStrPart "classifyMitigatedAge" oAge
  let p8 ← schedulePart oSched
  let p9 ← reportsPart oReports
  let p10 ← idListPart "assets" "asset" oAssets
  let p11 ← idListPart "credentials" "credentials" oCreds
  let p12 ← boolPart "emailOnLaunch" oEmailL
  let p13 ← boolPart "emailOnFinish" oEmailF
  let p14 ← enumPart "timeoutAction" timeoutActionChoices oTimeout
  let p15 ← boolPart "scanningVirtualHosts" oVirtual
  let p16 ← enumPart "rolloverType" rolloverTypeChoices oRollover
  let p17 ← strPart "urlList" oUrl
  let p18 ← numStrPart "maxScanTime" oMax
  pure (p1 ++ p2 ++ p3 ++ p4 ++ p5 ++ p6 ++ p7 ++ p8 ++ p9 ++ p10 ++ p11 ++
    p12 ++ p13 ++ p14 ++ p15 ++ p16 ++ p17 ++ p18)

/-- `WasScanAPI._build_creation_or_update_request(**kwargs)` (lines 39-139):
consults exactly the eighteen recognized keyword names and feeds them to
`buildCore`. -/
def _build_creation_or_update_request (kwargs : List (String × PyVal)) :
    Except PyErr (List (String × PyVal)) :=
  buildCore (pyLookup "name" kwargs) (pyLookup "type" kwargs)
    (pyLookup "description" kwargs) (pyLookup "repository_id" kwargs)
    (pyLookup "zone_id" kwargs) (pyLookup "dhcpTracking" kwargs)
    (pyLookup "classifyMitigatedAge" kwargs) (pyLookup "schedule_type" kwargs)
    (pyLookup "reports" kwargs) (pyLookup "assets" kwargs)
    (pyLookup "credentials" kwargs) (pyLookup "emailOnLaunch" kwargs)
    (pyLookup "emailOnFinish" kwargs) (pyLookup "timeoutAction" kwargs)
    (pyLookup "scanningVirtualHosts" kwargs) (pyLookup "rolloverType" kwargs)
    (pyLookup "urlList" kwargs) (pyLookup "maxScanTime" kwargs)

/-- The HTTP verbs the module issues. -/
inductive Verb where
  | get
  | post
  | patch
  | delete
  deriving DecidableEq

/-- One HTTP request as handed to the shared transport client: verb, path,
query parameters, and an optional JSON body. -/
structure HttpRequest where
  verb : Verb
  path : String
  params : List (String × String)
  body : Option (List (String × PyVal))

/-- The external HTTP collaborator (`self._api`), abstracted as an oracle
from the request to the decoded JSON body that `.json()` returns. -/
def Api : Type := HttpRequest → PyVal

/-- The fixed base path (`WasScanAPI.api_route`). -/
def api_route : String := "wasScan"

/-- `WasScanAPI.create(**kwargs)` (lines 194-195): build the request, POST
it to `wasScan`, and return `.json()["response"]`. -/
def create (api : Api) (kwargs : List (String × PyVal)) : Except PyErr PyVal := do
  let request ← _build_creation_or_update_request kwargs
  pyGetItemStr (api ⟨.post, api_route, [], some request⟩) "response"

/-- Lines 215-218 and 242-245: the `fields` query-parameter construction
shared by `list` and `details`: `if fields:` then `_check` each element as a
string and join with commas.  The checked values are the strings themselves
(`_check` passes values through unchanged), extracted here by `pyStr`. -/
def fieldsParams (fields : PyVal) : Except PyErr (List (String × String)) :=
  if pyTruthy fields then do
    let fs ← pyIter fields
    let checked ← fs.mapM fun f => _check "fields" f .str Option.none
    pure [("fields", String.intercalate "," (checked.map pyStr))]
  else pure []

/-- `WasScanAPI.list(fields)` (lines 197-220): GET `wasScan` with the
optional comma-joined `fields` parameter and return `.json()["response"]`. -/
def list (api : Api) (fields : PyVal) : Except PyErr PyVal := do
  let params ← fieldsParams fields
  pyGetItemStr (api ⟨.get, api_route, params, Option.none⟩) "response"

/-- `WasScanAPI.details(scan_id, fields)` (lines 222-247): GET
`wasScan/{scan_id}` and return `.json()["response"]`. -/
def details (api : Api) (scan_id : PyVal) (fields : PyVal) : Except PyErr PyVal := do
  let params ← fieldsParams fields
  pyGetItemStr (api ⟨.get, api_route ++ "/" ++ pyStr scan_id, params, Option.none⟩) "response"

/-- `WasScanAPI.edit(scan_id, **kwargs)` (lines 304-305): build the request
exactly as `create` does, PATCH `wasScan/{scan_id}`, and return
`.json()["response"]`. -/
def edit (api : Api) (scan_id : PyVal) (kwargs : List (String × PyVal)) :
    Except PyErr PyVal := do
  let request ← _build_creation_or_update_request kwargs
  pyGetItemStr (api ⟨.patch, api_route ++ "/" ++ pyStr scan_id, [], some request⟩) "response"

/-- `WasScanAPI.delete(scan_id)` (line 324): DELETE `wasScan/{scan_id}` and
return the full decoded body — no `["response"]` extraction. -/
def delete (api : Api) (scan_id : PyVal) : Except PyErr PyVal :=
  .ok (api ⟨.delete, api_route ++ "/" ++ pyStr scan_id, [], Option.none⟩)

/-- Python `v is None`. -/
def isNone : PyVal → Bool
  | .none => true
  | _ => false

/-- The pure part of `WasScanAPI.copy` (lines 348-365): the
exactly-one-of-`scan_id`/`scan_uuid` check, the request construction
`{"name": ..., "targetUser": {...}}`, and the choice of path.  Returns the
path and the JSON body that would be POSTed.  `if scan_id:` on line 360 is
Python truthiness, not an `is not None` test. -/
def copyBuild (scan_id scan_uuid name : PyVal) :
    Except PyErr (String × List (String × PyVal)) := do
  if (!isNone scan_id && !isNone scan_uuid) || (isNone scan_id && isNone scan_uuid) then
    .error (.valueError "Exactly one of these [scan_id, scan_uuid] should be found.")
  else
    let nm ← _check "name" name .str Option.none
    if pyTruthy scan_id then do
      let idv ← _check "scan_id" scan_id .int Option.none
      pure (api_route ++ "/" ++ pyStr scan_id ++ "/copy",
        [("name", nm), ("targetUser", .dict [("id", idv)])])
    else do
      let uv ← _check "scan_uuid" scan_uuid .str Option.none
      pure (api_route ++ "/" ++ pyStr scan_uuid ++ "/copy",
        [("name", nm), ("targetUser", .dict [("uuid", uv)])])

/-- `WasScanAPI.copy(scan_id, scan_uuid, name)` (lines 326-367): validate
and build via `copyBuild`, POST, and return `.json()["response"]`. -/
def copy (api : Api) (scan_id scan_uuid name : PyVal) : Except PyErr PyVal := do
  let pr ← copyBuild scan_id scan_uuid name
  pyGetItemStr (api ⟨.post, pr.1, [], some pr.2⟩) "response"

/-- The eighteen keyword names `_build_creation_or_update_request` consults,
in source order. -/
def recognizedKeys : List String :=
  ["name", "type", "description", "repository_id", "zone_id", "dhcpTracking",
   "classifyMitigatedAge", "schedule_type", "reports", "assets", "credentials",
   "emailOnLaunch", "emailOnFinish", "timeoutAction", "scanningVirtualHosts",
   "rolloverType", "urlList", "maxScanTime"]

/-- Whether a keyword name is one the builder consults. -/
def recognizedB (k : String) : Bool := strMem k recognizedKeys

/-- The output key the builder derives from each recognized keyword name
(identity except for the four renamed fields). -/
def derivedKey : String → String
  | "repository_id" => "repository"
  | "zone_id" => "zone"
  | "schedule_type" => "schedule"
  | k => k

section Lemmas

open PyVal

theorem exceptBind_ok {ε α β : Type} {x : Except ε α} {f : α → Except ε β} {r : β}
    (h : x >>= f = .ok r) : ∃ a, x = .ok a ∧ f a = .ok r := by
  cases x with
  | error e => exact absurd h (by simp [Bind.bind, Except.bind])
  | ok a => exact ⟨a, rfl, h⟩

theorem strMem_iff {s : String} {cs : List String} : strMem s cs = true ↔ s ∈ cs := by
  induction cs with
  | nil => simp [strMem]
  | cons c cs ih =>
    by_cases hc : c = s
    · subst hc; simp [strMem]
    · simp [strMem, hc, ih, Ne.symm hc]

theorem check_ok_val {f : String} {v r : PyVal} {t : PyType} {cs : Option (List String)}
    (h : _check f v t cs = .ok r) : r = v ∧ isinstance v t = true := by
  unfold _check at h
  by_cases hi : isinstance v t = true
  · rw [if_pos hi] at h
    refine ⟨?_, hi⟩
    cases cs with
    | none => exact (Except.ok.inj h).symm
    | some l =>
      cases v <;> simp at h
      rename_i s
      by_cases hm : strMem s l = true
      · rw [if_pos hm] at h; exact (Except.ok.inj h).symm
      · rw [if_neg hm] at h; cases h
  · rw [if_neg hi] at h; cases h

theorem check_str_ok {f : String} {v r : PyVal} {cs : Option (List String)}
    (h : _check f v .str cs = .ok r) : ∃ s, v = PyVal.str s ∧ r = PyVal.str s := by
  obtain ⟨hr, hi⟩ := check_ok_val h
  cases v <;> simp [isinstance] at hi
  exact ⟨_, rfl, hr⟩

theorem check_str_pass {f : String} {s : String} {cs : List String}
    (h : strMem s cs = true) :
    _check f (PyVal.str s) .str (some cs) = .ok (PyVal.str s) := by
  simp [_check, isinstance, h]

theorem check_str_fail {f : String} {s : String} {cs : List String}
    (h : strMem s cs = false) :
    _check f (PyVal.str s) .str (some cs) = .error (.unexpectedValue f cs) := by
  simp [_check, isinstance, h]

theorem check_str_choices_ok {f : String} {v r : PyVal} {cs : List String}
    (h : _check f v .str (some cs) = .ok r) :
    ∃ s, v = PyVal.str s ∧ r = PyVal.str s ∧ s ∈ cs := by
  obtain ⟨s, rfl, rfl⟩ := check_str_ok h
  refine ⟨s, rfl, rfl, ?_⟩
  by_cases hm : strMem s cs = true
  · exact strMem_iff.mp hm
  · rw [check_str_fail (Bool.not_eq_true _ ▸ hm)] at h
    cases h

theorem namePart_shape {o : Option PyVal} {l : List (String × PyVal)}
    (h : namePart o = .ok l) :
    l = [] ∨ ∃ s, l = [("name", PyVal.str s)] ∧ o.isSome := by
  cases o with
  | none => exact absurd h (by simp [namePart])
  | some v =>
    simp only [namePart] at h
    by_cases ht : pyTruthy v = true
    · rw [if_pos ht] at h
      obtain ⟨r, hr, h⟩ := exceptBind_ok h
      obtain ⟨s, rfl, rfl⟩ := check_str_ok hr
      exact Or.inr ⟨s, (Except.ok.inj h).symm, rfl⟩
    · rw [if_neg ht] at h
      exact Or.inl (Except.ok.inj h).symm

theorem strPart_shape {f : String} {o : Option PyVal} {l : List (String × PyVal)}
    (h : strPart f o = .ok l) :
    l = [] ∨ ∃ s, l = [(f, PyVal.str s)] ∧ o.isSome := by
  cases o with
  | none => exact Or.inl (Except.ok.inj h).symm
  | some v =>
    unfold strPart at h
    obtain ⟨r, hr, h⟩ := exceptBind_ok h
    obtain ⟨s, rfl, rfl⟩ := check_str_ok hr
    exact Or.inr ⟨s, (Except.ok.inj h).symm, rfl⟩

theorem idWrapPart_shape {k : String} {o : Option PyVal} {l : List (String × PyVal)}
    (h : idWrapPart k o = .ok l) :
    l = [] ∨ ∃ v, o = some v ∧ l = [(k, PyVal.dict [("id", PyVal.str (pyStr v))])] := by
  cases o with
  | none => exact Or.inl (Except.ok.inj h).symm
  | some v => exact Or.inr ⟨v, rfl, (Except.ok.inj h).symm⟩

theorem boolPart_shape {f : String} {o : Option PyVal} {l : List (String × PyVal)}
    (h : boolPart f o = .ok l) :
    l = [] ∨ ∃ b, l = [(f, PyVal.str (_to_boolean_string b))] ∧ o.isSome := by
  cases o with
  | none => exact Or.inl (Except.ok.inj h).symm
  | some v => exact Or.inr ⟨pyTruthy v, (Except.ok.inj h).symm, rfl⟩

theorem numStrPart_shape {f : String} {o : Option PyVal} {l : List (String × PyVal)}
    (h : numStrPart f o = .ok l) :
    l = [] ∨ ∃ v, o = some v ∧ l = [(f, PyVal.str (pyStr v))] := by
  cases o with
  | none => exact Or.inl (Except.ok.inj h).symm
  | some v => exact Or.inr ⟨v, rfl, (Except.ok.inj h).symm⟩

theorem schedulePart_shape {o : Option PyVal} {l : List (String × PyVal)}
    (h : schedulePart o = .ok l) :
    l = [] ∨ ∃ s, l = [("schedule", PyVal.dict [("type", PyVal.str s)])] ∧
      s ∈ scheduleChoices ∧ o.isSome := by
  cases o with
  | none => exact Or.inl (Except.ok.inj h).symm
  | some v =>
    unfold schedulePart at h
    obtain ⟨r, hr, h⟩ := exceptBind_ok h
    obtain ⟨s, rfl, rfl, hs⟩ := check_str_choices_ok hr
    exact Or.inr ⟨s, (Except.ok.inj h).symm, hs, rfl⟩

theorem enumPart_shape {f : String} {cs : List String} {o : Option PyVal}
    {l : List (String × PyVal)} (h : enumPart f cs o = .ok l) :
    l = [] ∨ ∃ s, l = [(f, PyVal.str s)] ∧ s ∈ cs ∧ o.isSome := by
  cases o with
  | none => exact Or.inl (Except.ok.inj h).symm
  | some v =>
    unfold enumPart at h
    obtain ⟨r, hr, h⟩ := exceptBind_ok h
    obtain ⟨s, rfl, rfl, hs⟩ := check_str_choices_ok hr
    exact Or.inr ⟨s, (Except.ok.inj h).symm, hs, rfl⟩

theorem check_int_ok {f : String} {v r : PyVal}
    (h : _check f v .int Option.none = .ok r) :
    r = v ∧ isinstance v .int = true := check_ok_val h

theorem mapReports_shape {rs : List PyVal} {items : List PyVal}
    (h : mapReports rs = .ok items) :
    ∀ it ∈ items, ∃ idv s, it = PyVal.dict [("id", idv), ("reportSource", PyVal.str s)] ∧
      isinstance idv .int = true ∧ s ∈ reportSourceChoices := by
  induction rs generalizing items with
  | nil =>
    intro it hit
    rw [show mapReports [] = .ok [] from rfl] at h
    rw [← Except.ok.inj h] at hit
    cases hit
  | cons r rs ih =>
    intro it hit
    simp only [mapReports] at h
    obtain ⟨i, hi, h⟩ := exceptBind_ok h
    obtain ⟨idv, hidv, h⟩ := exceptBind_ok h
    obtain ⟨s0, hs0, h⟩ := exceptBind_ok h
    obtain ⟨sv, hsv, h⟩ := exceptBind_ok h
    obtain ⟨rest, hrest, h⟩ := exceptBind_ok h
    obtain ⟨hidval, hint⟩ := check_int_ok hidv
    obtain ⟨s, rfl, rfl, hs⟩ := check_str_choices_ok hsv
    obtain rfl : _ :: rest = items := Except.ok.inj h
    cases hit with
    | head => exact ⟨idv, s, rfl, hidval ▸ hint, hs⟩
    | tail _ hmem => exact ih hrest it hmem

theorem reportsPart_shape {o : Option PyVal} {l : List (String × PyVal)}
    (h : reportsPart o = .ok l) :
    l = [] ∨ ∃ items, l = [("reports", PyVal.list items)] ∧ o.isSome ∧
      ∀ it ∈ items, ∃ idv s, it = PyVal.dict [("id", idv), ("reportSource", PyVal.str s)] ∧
        isinstance idv .int = true ∧ s ∈ reportSourceChoices := by
  cases o with
  | none => exact Or.inl (Except.ok.inj h).symm
  | some v =>
    simp only [reportsPart] at h
    obtain ⟨n, hn, h⟩ := exceptBind_ok h
    by_cases hpos : n > 0
    · rw [if_pos hpos] at h
      obtain ⟨elems, helems, h⟩ := exceptBind_ok h
      obtain ⟨items, hitems, h⟩ := exceptBind_ok h
      exact Or.inr ⟨items, (Except.ok.inj h).symm, rfl, mapReports_shape hitems⟩
    · rw [if_neg hpos] at h
      exact Or.inl (Except.ok.inj h).symm

theorem mapIds_shape {checkName : String} {xs : List PyVal} {items : List PyVal}
    (h : mapIds checkName xs = .ok items) :
    ∀ it ∈ items, ∃ idv, it = PyVal.dict [("id", idv)] ∧ isinstance idv .int = true := by
  induction xs generalizing items with
  | nil =>
    intro it hit
    rw [show mapIds checkName [] = .ok [] from rfl] at h
    rw [← Except.ok.inj h] at hit
    cases hit
  | cons x xs ih =>
    intro it hit
    simp only [mapIds] at h
    obtain ⟨idv, hidv, h⟩ := exceptBind_ok h
    obtain ⟨rest, hrest, h⟩ := exceptBind_ok h
    obtain ⟨hidval, hint⟩ := check_int_ok hidv
    obtain rfl : _ :: rest = items := Except.ok.inj h
    cases hit with
    | head => exact ⟨idv, rfl, hidval ▸ hint⟩
    | tail _ hmem => exact ih hrest it hmem

theorem idListPart_shape {field checkName : String} {o : Option PyVal}
    {l : List (String × PyVal)} (h : idListPart field checkName o = .ok l) :
    l = [] ∨ ∃ items, l = [(field, PyVal.list items)] ∧ o.isSome ∧
      ∀ it ∈ items, ∃ idv, it = PyVal.dict [("id", idv)] ∧ isinstance idv .int = true := by
  cases o with
  | none => exact Or.inl (Except.ok.inj h).symm
  | some v =>
    simp only [idListPart] at h
    obtain ⟨n, hn, h⟩ := exceptBind_ok h
    by_cases hpos : n > 0
    · rw [if_pos hpos] at h
      obtain ⟨elems, helems, h⟩ := exceptBind_ok h
      obtain ⟨items, hitems, h⟩ := exceptBind_ok h
      exact Or.inr ⟨items, (Except.ok.inj h).symm, rfl, mapIds_shape hitems⟩
    · rw [if_neg hpos] at h
      exact Or.inl (Except.ok.inj h).symm

/-- Decomposition of a successful `buildCore` run into its eighteen
per-field fragments. -/
theorem buildCore_parts {oName oType oDesc oRepo oZone oDhcp oAge oSched oReports
    oAssets oCreds oEmailL oEmailF oTimeout oVirtual oRollover oUrl oMax : Option PyVal}
    {req : List (String × PyVal)}
    (h : buildCore oName oType oDesc oRepo oZone oDhcp oAge oSched oReports oAssets
      oCreds oEmailL oEmailF oTimeout oVirtual oRollover oUrl oMax = .ok req) :
    ∃ l1 l2 l3 l4 l5 l6 l7 l8 l9 l10 l11 l12 l13 l14 l15 l16 l17 l18,
      namePart oName = .ok l1 ∧
      strPart "type" oType = .ok l2 ∧
      strPart "description" oDesc = .ok l3 ∧
      idWrapPart "repository" oRepo = .ok l4 ∧
      idWrapPart "zone" oZone = .ok l5 ∧
      boolPart "dhcpTracking" oDhcp = .ok l6 ∧
      numStrPart "classifyMitigatedAge" oAge = .ok l7 ∧
      schedulePart oSched = .ok l8 ∧
      reportsPart oReports = .ok l9 ∧
      idListPart "assets" "asset" oAssets = .ok l10 ∧
      idListPart "credentials" "credentials" oCreds = .ok l11 ∧
      boolPart "emailOnLaunch" oEmailL = .ok l12 ∧
      boolPart "emailOnFinish" oEmailF = .ok l13 ∧
      enumPart "timeoutAction" timeoutActionChoices oTimeout = .ok l14 ∧
      boolPart "scanningVirtualHosts" oVirtual = .ok l15 ∧
      enumPart "rolloverType" rolloverTypeChoices oRollover = .ok l16 ∧
      strPart "urlList" oUrl = .ok l17 ∧
      numStrPart "maxScanTime" oMax = .ok l18 ∧
      req = l1 ++ (l2 ++ (l3 ++ (l4 ++ (l5 ++ (l6 ++ (l7 ++ (l8 ++ (l9 ++ (l10 ++
        (l11 ++ (l12 ++ (l13 ++ (l14 ++ (l15 ++ (l16 ++ (l17 ++ l18)))))))))))))))) := by
  unfold buildCore at h
  obtain ⟨l1, h1, h⟩ := exceptBind_ok h
  obtain ⟨l2, h2, h⟩ := exceptBind_ok h
  obtain ⟨l3, h3, h⟩ := exceptBind_ok h
  obtain ⟨l4, h4, h⟩ := exceptBind_ok h
  obtain ⟨l5, h5, h⟩ := exceptBind_ok h
  obtain ⟨l6, h6, h⟩ := exceptBind_ok h
  obtain ⟨l7, h7, h⟩ := exceptBind_ok h
  obtain ⟨l8, h8, h⟩ := exceptBind_ok h
  obtain ⟨l9, h9, h⟩ := exceptBind_ok h
  obtain ⟨l10, h10, h⟩ := exceptBind_ok h
  obtain ⟨l11, h11, h⟩ := exceptBind_ok h
  obtain ⟨l12, h12, h⟩ := exceptBind_ok h
  obtain ⟨l13, h13, h⟩ := exceptBind_ok h
  obtain ⟨l14, h14, h⟩ := exceptBind_ok h
  obtain ⟨l15, h15, h⟩ := exceptBind_ok h
  obtain ⟨l16, h16, h⟩ := exceptBind_ok h
  obtain ⟨l17, h17, h⟩ := exceptBind_ok h
  obtain ⟨l18, h18, h⟩ := exceptBind_ok h
  refine ⟨l1, l2, l3, l4, l5, l6, l7, l8, l9, l10, l11, l12, l13, l14, l15, l16, l17,
    l18, h1, h2, h3, h4, h5, h6, h7, h8, h9, h10, h11, h12, h13, h14, h15, h16, h17,
    h18, ?_⟩
  rw [← Except.ok.inj h]
  simp only [List.append_assoc]

/-- Filtering a keyword list down to the recognized keys does not change
the lookup of any recognized key. -/
theorem pyLookup_filter (k : String) (hk : recognizedB k = true)
    (kwargs : List (String × PyVal)) :
    pyLookup k (kwargs.filter fun p => recognizedB p.1) = pyLookup k kwargs := by
  induction kwargs with
  | nil => rfl
  | cons p rest ih =>
    obtain ⟨k', v⟩ := p
    by_cases hkk : k' = k
    · subst hkk
      simp [List.filter, hk, pyLookup]
    · by_cases hrec : recognizedB k' = true
      · simp [List.filter, hrec, pyLookup, hkk, ih]
      · simp [List.filter, Bool.not_eq_true _ ▸ hrec, pyLookup, hkk, ih]

/-- A successful lookup means the key occurs in the keyword list. -/
theorem pyLookup_isSome_mem {k : String} {kwargs : List (String × PyVal)}
    (h : (pyLookup k kwargs).isSome) : k ∈ kwargs.map Prod.fst := by
  induction kwargs with
  | nil => simp [pyLookup] at h
  | cons p rest ih =>
    obtain ⟨k', v⟩ := p
    by_cases hkk : k' = k
    · subst hkk; simp
    · simp only [pyLookup, if_neg hkk] at h
      simp [ih h]

theorem mem_pair {k f : String} {v x : PyVal} (h : (k, v) ∈ [(f, x)]) : k = f ∧ v = x := by
  cases List.mem_singleton.mp h
  exact ⟨rfl, rfl⟩

set_option maxHeartbeats 1600000 in
/-- Classification of every entry of a successful build: its key is one of
the eighteen derived output keys, its value has the shape the corresponding
source block produces, and the corresponding keyword was supplied. -/
theorem build_mem_cases {kwargs req : List (String × PyVal)}
    (h : _build_creation_or_update_request kwargs = .ok req)
    {k : String} {v : PyVal} (hm : (k, v) ∈ req) :
    (k = "name" ∧ (pyLookup "name" kwargs).isSome ∧ ∃ s, v = PyVal.str s) ∨
    (k = "type" ∧ (pyLookup "type" kwargs).isSome ∧ ∃ s, v = PyVal.str s) ∨
    (k = "description" ∧ (pyLookup "description" kwargs).isSome ∧ ∃ s, v = PyVal.str s) ∨
    (k = "repository" ∧ ∃ w, pyLookup "repository_id" kwargs = some w ∧
      v = PyVal.dict [("id", PyVal.str (pyStr w))]) ∨
    (k = "zone" ∧ ∃ w, pyLookup "zone_id" kwargs = some w ∧
      v = PyVal.dict [("id", PyVal.str (pyStr w))]) ∨
    (k = "dhcpTracking" ∧ (pyLookup "dhcpTracking" kwargs).isSome ∧
      ∃ b, v = PyVal.str (_to_boolean_string b)) ∨
    (k = "classifyMitigatedAge" ∧ ∃ w, pyLookup "classifyMitigatedAge" kwargs = some w ∧
      v = PyVal.str (pyStr w)) ∨
    (k = "schedule" ∧ (pyLookup "schedule_type" kwargs).isSome ∧
      ∃ s, v = PyVal.dict [("type", PyVal.str s)] ∧ s ∈ scheduleChoices) ∨
    (k = "reports" ∧ (pyLookup "reports" kwargs).isSome ∧ ∃ items, v = PyVal.list items ∧
      ∀ it ∈ items, ∃ idv s, it = PyVal.dict [("id", idv), ("reportSource", PyVal.str s)] ∧
        isinstance idv .int = true ∧ s ∈ reportSourceChoices) ∨
    (k = "assets" ∧ (pyLookup "assets" kwargs).isSome ∧ ∃ items, v = PyVal.list items ∧
      ∀ it ∈ items, ∃ idv, it = PyVal.dict [("id", idv)] ∧ isinstance idv .int = true) ∨
    (k = "credentials" ∧ (pyLookup "credentials" kwargs).isSome ∧
      ∃ items, v = PyVal.list items ∧
      ∀ it ∈ items, ∃ idv, it = PyVal.dict [("id", idv)] ∧ isinstance idv .int = true) ∨
    (k = "emailOnLaunch" ∧ (pyLookup "emailOnLaunch" kwargs).isSome ∧
      ∃ b, v = PyVal.str (_to_boolean_string b)) ∨
    (k = "emailOnFinish" ∧ (pyLookup "emailOnFinish" kwargs).isSome ∧
      ∃ b, v = PyVal.str (_to_boolean_string b)) ∨
    (k = "timeoutAction" ∧ (pyLookup "timeoutAction" kwargs).isSome ∧
      ∃ s, v = PyVal.str s ∧ s ∈ timeoutActionChoices) ∨
    (k = "scanningVirtualHosts" ∧ (pyLookup "scanningVirtualHosts" kwargs).isSome ∧
      ∃ b, v = PyVal.str (_to_boolean_string b)) ∨
    (k = "rolloverType" ∧ (pyLookup "rolloverType" kwargs).isSome ∧
      ∃ s, v = PyVal.str s ∧ s ∈ rolloverTypeChoices) ∨
    (k = "urlList" ∧ (pyLookup "urlList" kwargs).isSome ∧ ∃ s, v = PyVal.str s) ∨
    (k = "maxScanTime" ∧ ∃ w, pyLookup "maxScanTime" kwargs = some w ∧
      v = PyVal.str (pyStr w)) := by
  unfold _build_creation_or_update_request at h
  obtain ⟨l1, l2, l3, l4, l5, l6, l7, l8, l9, l10, l11, l12, l13, l14, l15, l16, l17,
    l18, h1, h2, h3, h4, h5, h6, h7, h8, h9, h10, h11, h12, h13, h14, h15, h16, h17,
    h18, rfl⟩ := buildCore_parts h
  rcases List.mem_append.mp hm with hm | hm
  · rcases namePart_shape h1 with rfl | ⟨s, rfl, hsome⟩
    · cases hm
    · obtain ⟨rfl, rfl⟩ := mem_pair hm
      exact Or.inl ⟨rfl, hsome, s, rfl⟩
  rcases List.mem_append.mp hm with hm | hm
  · rcases strPart_shape h2 with rfl | ⟨s, rfl, hsome⟩
    · cases hm
    · obtain ⟨rfl, rfl⟩ := mem_pair hm
      exact Or.inr (Or.inl ⟨rfl, hsome, s, rfl⟩)
  rcases List.mem_append.mp hm with hm | hm
  · rcases strPart_shape h3 with rfl | ⟨s, rfl, hsome⟩
    · cases hm
    · obtain ⟨rfl, rfl⟩ := mem_pair hm
      exact Or.inr (Or.inr (Or.inl ⟨rfl, hsome, s, rfl⟩))
  rcases List.mem_append.mp hm with hm | hm
  · rcases idWrapPart_shape h4 with rfl | ⟨w, hw, rfl⟩
    · cases hm
    · obtain ⟨rfl, rfl⟩ := mem_pair hm
      exact Or.inr (Or.inr (Or.inr (Or.inl ⟨rfl, w, hw, rfl⟩)))
  rcases List.mem_append.mp hm with hm | hm
  · rcases idWrapPart_shape h5 with rfl | ⟨w, hw, rfl⟩
    · cases hm
    · obtain ⟨rfl, rfl⟩ := mem_pair hm
      exact Or.inr (Or.inr (Or.inr (Or.inr (Or.inl ⟨rfl, w, hw, rfl⟩))))
  rcases List.mem_append.mp hm with hm | hm
  · rcases boolPart_shape h6 with rfl | ⟨b, rfl, hsome⟩
    · cases hm
    · obtain ⟨rfl, rfl⟩ := mem_pair hm
      exact Or.inr (Or.inr (Or.inr (Or.inr (Or.inr (Or.inl ⟨rfl, hsome, b, rfl⟩)))))
  rcases List.mem_append.mp hm with hm | hm
  · rcases numStrPart_shape h7 with rfl | ⟨w, hw, rfl⟩
    · cases hm
    · obtain ⟨rfl, rfl⟩ := mem_pair hm
      exact Or.inr (Or.inr (Or.inr (Or.inr (Or.inr (Or.inr (Or.inl ⟨rfl, w, hw, rfl⟩))))))
  rcases List.mem_append.mp hm with hm | hm
  · rcases schedulePart_shape h8 with rfl | ⟨s, rfl, hs, hsome⟩
    · cases hm
    · obtain ⟨rfl, rfl⟩ := mem_pair hm
      exact Or.inr (Or.inr (Or.inr (Or.inr (Or.inr (Or.inr (Or.inr (Or.inl
        ⟨rfl, hsome, s, rfl, hs⟩)))))))
  rcases List.mem_append.mp hm with hm | hm
  · rcases reportsPart_shape h9 with rfl | ⟨items, rfl, hsome, hshape⟩
    · cases hm
    · obtain ⟨rfl, rfl⟩ := mem_pair hm
      exact Or.inr (Or.inr (Or.inr (Or.inr (Or.inr (Or.inr (Or.inr (Or.inr (Or.inl
        ⟨rfl, hsome, items, rfl, hshape⟩))))))))
  rcases List.mem_append.mp hm with hm | hm
  · rcases idListPart_shape h10 with rfl | ⟨items, rfl, hsome, hshape⟩
    · cases hm
    · obtain ⟨rfl, rfl⟩ := mem_pair hm
      exact Or.inr (Or.inr (Or.inr (Or.inr (Or.inr (Or.inr (Or.inr (Or.inr (Or.inr
        (Or.inl ⟨rfl, hsome, items, rfl, hshape⟩)))))))))
  rcases List.mem_append.mp hm with hm | hm
  · rcases idListPart_shape h11 with rfl | ⟨items, rfl, hsome, hshape⟩
    · cases hm
    · obtain ⟨rfl, rfl⟩ := mem_pair hm
      exact Or.inr (Or.inr (Or.inr (Or.inr (Or.inr (Or.inr (Or.inr (Or.inr (Or.inr
        (Or.inr (Or.inl ⟨rfl, hsome, items, rfl, hshape⟩))))))))))
  rcases List.mem_append.mp hm with hm | hm
  · rcases boolPart_shape h12 with rfl | ⟨b, rfl, hsome⟩
    · cases hm
    · obtain ⟨rfl, rfl⟩ := mem_pair hm
      exact Or.inr (Or.inr (Or.inr (Or.inr (Or.inr (Or.inr (Or.inr (Or.inr (Or.inr
        (Or.inr (Or.inr (Or.inl ⟨rfl, hsome, b, rfl⟩)))))))))))
  rcases List.mem_append.mp hm with hm | hm
  · rcases boolPart_shape h13 with rfl | ⟨b, rfl, hsome⟩
    · cases hm
    · obtain ⟨rfl, rfl⟩ := mem_pair hm
      exact Or.inr (Or.inr (Or.inr (Or.inr (Or.inr (Or.inr (Or.inr (Or.inr (Or.inr
        (Or.inr (Or.inr (Or.inr (Or.inl ⟨rfl, hsome, b, rfl⟩))))))))))))
  rcases List.mem_append.mp hm with hm | hm
  · rcases enumPart_shape h14 with rfl | ⟨s, rfl, hs, hsome⟩
    · cases hm
    · obtain ⟨rfl, rfl⟩ := mem_pair hm
      exact Or.inr (Or.inr (Or.inr (Or.inr (Or.inr (Or.inr (Or.inr (Or.inr (Or.inr
        (Or.inr (Or.inr (Or.inr (Or.inr (Or.inl ⟨rfl, hsome, s, rfl, hs⟩)))))))))))))
  rcases List.mem_append.mp hm with hm | hm
  · rcases boolPart_shape h15 with rfl | ⟨b, rfl, hsome⟩
    · cases hm
    · obtain ⟨rfl, rfl⟩ := mem_pair hm
      exact Or.inr (Or.inr (Or.inr (Or.inr (Or.inr (Or.inr (Or.inr (Or.inr (Or.inr
        (Or.inr (Or.inr (Or.inr (Or.inr (Or.inr (Or.inl ⟨rfl, hsome, b, rfl⟩))))))))))))))
  rcases List.mem_append.mp hm with hm | hm
  · rcases enumPart_shape h16 with rfl | ⟨s, rfl, hs, hsome⟩
    · cases hm
    · obtain ⟨rfl, rfl⟩ := mem_pair hm
      exact Or.inr (Or.inr (Or.inr (Or.inr (Or.inr (Or.inr (Or.inr (Or.inr (Or.inr
        (Or.inr (Or.inr (Or.inr (Or.inr (Or.inr (Or.inr (Or.inl
        ⟨rfl, hsome, s, rfl, hs⟩)))))))))))))))
  rcases List.mem_append.mp hm with hm | hm
  · rcases strPart_shape h17 with rfl | ⟨s, rfl, hsome⟩
    · cases hm
    · obtain ⟨rfl, rfl⟩ := mem_pair hm
      exact Or.inr (Or.inr (Or.inr (Or.inr (Or.inr (Or.inr (Or.inr (Or.inr (Or.inr
        (Or.inr (Or.inr (Or.inr (Or.inr (Or.inr (Or.inr (Or.inr (Or.inl
        ⟨rfl, hsome, s, rfl⟩))))))))))))))))
  · rcases numStrPart_shape h18 with rfl | ⟨w, hw, rfl⟩
    · cases hm
    · obtain ⟨rfl, rfl⟩ := mem_pair hm
      exact Or.inr (Or.inr (Or.inr (Or.inr (Or.inr (Or.inr (Or.inr (Or.inr (Or.inr
        (Or.inr (Or.inr (Or.inr (Or.inr (Or.inr (Or.inr (Or.inr (Or.inr
        ⟨rfl, w, hw, rfl⟩))))))))))))))))

end Lemmas

/-- C1: the spec demands that an absent or empty-string `name` fail
validation before any request is sent.  The code raises `KeyError` when
`name` is absent, but `if kwargs["name"]:` silently drops an empty-string
`name`: the build succeeds with an empty request, and `create` still posts
it and consults the transport — no validation error is raised.  This
contradicts the required-`name` documentation of `create`, so it is a code
bug, witnessed here by evaluating the embedded code at `name = ""`. -/
theorem empty_name_silently_dropped :
    _build_creation_or_update_request [("name", PyVal.str "")] = .ok [] ∧
    _build_creation_or_update_request [] = .error (.keyError "name") ∧
    (∀ body : PyVal, create (fun _ => body) [("name", PyVal.str "")] =
      pyGetItemStr body "response") :=
  ⟨rfl, rfl, fun _ => rfl⟩

/-- C3: whenever `scan_id` and `scan_uuid` are both supplied (both not
`None`) or both omitted (both `None`), `copy` fails with the
mutual-exclusion `ValueError` regardless of the transport oracle — so no
network request is ever issued — and already `copyBuild`, the pure request
construction, fails the same way. -/
theorem copy_exactly_one_of_id_uuid (api : Api) (i u n : PyVal)
    (h : (isNone i = false ∧ isNone u = false) ∨ (isNone i = true ∧ isNone u = true)) :
    copy api i u n = .error (.valueError
      "Exactly one of these [scan_id, scan_uuid] should be found.") ∧
    copyBuild i u n = .error (.valueError
      "Exactly one of these [scan_id, scan_uuid] should be found.") := by
  have hcond : ((!isNone i && !isNone u) || (isNone i && isNone u)) = true := by
    rcases h with ⟨h1, h2⟩ | ⟨h1, h2⟩ <;> rw [h1, h2] <;> rfl
  have hbuild : copyBuild i u n = .error (.valueError
      "Exactly one of these [scan_id, scan_uuid] should be found.") := by
    unfold copyBuild
    rw [if_pos hcond]
  refine ⟨?_, hbuild⟩
  show Bind.bind (copyBuild i u n) _ = _
  rw [hbuild]
  rfl

/-- Closed instance of C3: `copy(scan_id=1, scan_uuid="x", name="n")` and
`copy(name="n")` both fail with the mutual-exclusion error. -/
theorem copy_exactly_one_of_id_uuid_witness :
    copy (fun _ => PyVal.none) (PyVal.int 1) (PyVal.str "x") (PyVal.str "n") =
      .error (.valueError "Exactly one of these [scan_id, scan_uuid] should be found.") ∧
    copy (fun _ => PyVal.none) PyVal.none PyVal.none (PyVal.str "n") =
      .error (.valueError "Exactly one of these [scan_id, scan_uuid] should be found.") :=
  ⟨(copy_exactly_one_of_id_uuid (fun _ => PyVal.none) (PyVal.int 1) (PyVal.str "x")
      (PyVal.str "n") (Or.inl ⟨rfl, rfl⟩)).1,
   (copy_exactly_one_of_id_uuid (fun _ => PyVal.none) PyVal.none PyVal.none
      (PyVal.str "n") (Or.inr ⟨rfl, rfl⟩)).1⟩

/-- C10: `copy(scan_id=0, name=s)` passes the exactly-one-of check (`0` is
not `None`), but `if scan_id:` is falsy for `0`, so the builder takes the
uuid branch and `_check("scan_uuid", None, str)` fails with a type error
naming `scan_uuid`; the result is this error for every transport oracle, so
nothing is ever posted to `wasScan/0/copy`. -/
theorem copy_scan_id_zero_uuid_type_error (api : Api) (s : String) :
    copyBuild (PyVal.int 0) PyVal.none (PyVal.str s) = .error (.typeError "scan_uuid") ∧
    copy api (PyVal.int 0) PyVal.none (PyVal.str s) = .error (.typeError "scan_uuid") :=
  ⟨rfl, rfl⟩

/-- C5: each of the four boolean fields set to `True`/`False` serializes to
the literal string `"true"`/`"false"`; and in every successful build, the
value at any of these four keys is a `_to_boolean_string` string — never a
native boolean. -/
theorem boolean_fields_serialized_as_strings :
    (∀ b1 b2 b3 b4 : Bool,
      _build_creation_or_update_request [("name", PyVal.str "x"),
        ("dhcpTracking", PyVal.bool b1), ("emailOnLaunch", PyVal.bool b2),
        ("emailOnFinish", PyVal.bool b3), ("scanningVirtualHosts", PyVal.bool b4)] =
      .ok [("name", PyVal.str "x"),
        ("dhcpTracking", PyVal.str (_to_boolean_string b1)),
        ("emailOnLaunch", PyVal.str (_to_boolean_string b2)),
        ("emailOnFinish", PyVal.str (_to_boolean_string b3)),
        ("scanningVirtualHosts", PyVal.str (_to_boolean_string b4))]) ∧
    (_to_boolean_string true = "true" ∧ _to_boolean_string false = "false") ∧
    (∀ kwargs req, _build_creation_or_update_request kwargs = .ok req →
      ∀ k, (k = "dhcpTracking" ∨ k = "emailOnLaunch" ∨ k = "emailOnFinish" ∨
        k = "scanningVirtualHosts") →
      ∀ v, (k, v) ∈ req → ∃ b, v = PyVal.str (_to_boolean_string b)) := by
  refine ⟨fun b1 b2 b3 b4 => rfl, ⟨rfl, rfl⟩, ?_⟩
  intro kwargs req h k hk v hv
  have hc := build_mem_cases h hv
  rcases hk with rfl | rfl | rfl | rfl <;> simp at hc <;>
    obtain ⟨_, hb | hb⟩ := hc
  exacts [⟨false, hb⟩, ⟨true, hb⟩, ⟨false, hb⟩, ⟨true, hb⟩,
    ⟨false, hb⟩, ⟨true, hb⟩, ⟨false, hb⟩, ⟨true, hb⟩]

/-- Closed instance of C5's universal part at a concrete build. -/
theorem boolean_fields_serialized_witness :
    ∃ b, PyVal.str "true" = PyVal.str (_to_boolean_string b) :=
  boolean_fields_serialized_as_strings.2.2
    [("name", PyVal.str "x"), ("dhcpTracking", PyVal.bool true)]
    [("name", PyVal.str "x"), ("dhcpTracking", PyVal.str "true")] rfl
    "dhcpTracking" (Or.inl rfl) (PyVal.str "true")
    (List.mem_cons_of_mem _ (List.mem_cons_self _ _))

/-- C7: `copy(scan_id=n, name=s)` with positive `n` builds
`{"name": s, "targetUser": {"id": n}}` with a native-integer id and posts
it to `wasScan/{n}/copy`; `copy(scan_uuid=u, name=s)` builds
`{"name": s, "targetUser": {"uuid": u}}` and posts to `wasScan/{u}/copy`. -/
theorem copy_builds_id_or_uuid_request :
    (∀ (api : Api) (n : Int) (s : String), 0 < n →
      copyBuild (PyVal.int n) PyVal.none (PyVal.str s) =
        .ok ("wasScan/" ++ toString n ++ "/copy",
          [("name", PyVal.str s), ("targetUser", PyVal.dict [("id", PyVal.int n)])]) ∧
      copy api (PyVal.int n) PyVal.none (PyVal.str s) = pyGetItemStr
        (api ⟨.post, "wasScan/" ++ toString n ++ "/copy", [],
          some [("name", PyVal.str s),
            ("targetUser", PyVal.dict [("id", PyVal.int n)])]⟩) "response") ∧
    (∀ (api : Api) (u s : String),
      copyBuild PyVal.none (PyVal.str u) (PyVal.str s) =
        .ok ("wasScan/" ++ u ++ "/copy",
          [("name", PyVal.str s), ("targetUser", PyVal.dict [("uuid", PyVal.str u)])]) ∧
      copy api PyVal.none (PyVal.str u) (PyVal.str s) = pyGetItemStr
        (api ⟨.post, "wasScan/" ++ u ++ "/copy", [],
          some [("name", PyVal.str s),
            ("targetUser", PyVal.dict [("uuid", PyVal.str u)])]⟩) "response") := by
  refine ⟨?_, fun api u s => ⟨rfl, rfl⟩⟩
  intro api n s hn
  have ht : pyTruthy (PyVal.int n) = true := by
    simp only [pyTruthy, bne_iff_ne, ne_eq]
    omega
  have hb : copyBuild (PyVal.int n) PyVal.none (PyVal.str s) =
      .ok ("wasScan/" ++ toString n ++ "/copy",
        [("name", PyVal.str s), ("targetUser", PyVal.dict [("id", PyVal.int n)])]) := by
    change (if pyTruthy (PyVal.int n) = true then _ else _) = _
    rw [if_pos ht]
    rfl
  refine ⟨hb, ?_⟩
  show Bind.bind (copyBuild (PyVal.int n) PyVal.none (PyVal.str s)) _ = _
  rw [hb]
  rfl

/-- Closed instance of C7 at `scan_id = 1`, `name = "n"`. -/
theorem copy_builds_id_request_witness :
    copyBuild (PyVal.int 1) PyVal.none (PyVal.str "n") =
      .ok ("wasScan/1/copy",
        [("name", PyVal.str "n"), ("targetUser", PyVal.dict [("id", PyVal.int 1)])]) :=
  ((copy_builds_id_or_uuid_request).1 (fun _ => PyVal.none) 1 "n" (by decide)).1

theorem mapIds_int (cn : String) (ids : List Int) :
    mapIds cn (ids.map PyVal.int) =
      .ok (ids.map fun i => PyVal.dict [("id", PyVal.int i)]) := by
  induction ids with
  | nil => rfl
  | cons i ids ih =>
    change Bind.bind (mapIds cn (ids.map PyVal.int)) _ = _
    rw [ih]
    rfl

theorem mapReports_pairs (rs : List (Int × String)) :
    (∀ p ∈ rs, p.2 ∈ reportSourceChoices) →
    mapReports (rs.map fun p => PyVal.tuple [PyVal.int p.1, PyVal.str p.2]) =
      .ok (rs.map fun p =>
        PyVal.dict [("id", PyVal.int p.1), ("reportSource", PyVal.str p.2)]) := by
  induction rs with
  | nil => intro _; rfl
  | cons p rs ih =>
    intro hsrc
    have hm : strMem p.2 reportSourceChoices = true :=
      strMem_iff.mpr (hsrc p (List.mem_cons_self p rs))
    change Bind.bind
      (_check "reportSource" (PyVal.str p.2) .str (some reportSourceChoices)) _ = _
    rw [check_str_pass hm]
    change Bind.bind
      (mapReports (rs.map fun p => PyVal.tuple [PyVal.int p.1, PyVal.str p.2])) _ = _
    rw [ih (fun q hq => hsrc q (List.mem_cons_of_mem _ hq))]
    rfl

theorem idListPart_ints (field cn : String) (ids : List Int) (hne : ids ≠ []) :
    idListPart field cn (some (PyVal.list (ids.map PyVal.int))) =
      .ok [(field, PyVal.list (ids.map fun i => PyVal.dict [("id", PyVal.int i)]))] := by
  have hpos : (ids.map PyVal.int).length > 0 := by
    simp [List.length_pos, hne]
  change (if (ids.map PyVal.int).length > 0 then _ else _) = _
  rw [if_pos hpos]
  change Bind.bind (mapIds cn (ids.map PyVal.int)) _ = _
  rw [mapIds_int]
  rfl

theorem reportsPart_pairs (rs : List (Int × String)) (hne : rs ≠ [])
    (hsrc : ∀ p ∈ rs, p.2 ∈ reportSourceChoices) :
    reportsPart (some (PyVal.list
      (rs.map fun p => PyVal.tuple [PyVal.int p.1, PyVal.str p.2]))) =
      .ok [("reports", PyVal.list (rs.map fun p =>
        PyVal.dict [("id", PyVal.int p.1), ("reportSource", PyVal.str p.2)]))] := by
  have hpos : (rs.map fun p => PyVal.tuple [PyVal.int p.1, PyVal.str p.2]).length > 0 := by
    simp [List.length_pos, hne]
  change (if (rs.map fun p =>
    PyVal.tuple [PyVal.int p.1, PyVal.str p.2]).length > 0 then _ else _) = _
  rw [if_pos hpos]
  change Bind.bind
    (mapReports (rs.map fun p => PyVal.tuple [PyVal.int p.1, PyVal.str p.2])) _ = _
  rw [mapReports_pairs rs hsrc]
  rfl

/-- C6: for `reports`, `assets` and `credentials`, an empty list produces no
key at all in the output, and a non-empty list produces the documented list
of `{"id": ...}` / `{"id": ..., "reportSource": ...}` objects. -/
theorem empty_collections_suppress_key :
    (_build_creation_or_update_request [("name", PyVal.str "x"),
      ("reports", PyVal.list [])] = .ok [("name", PyVal.str "x")]) ∧
    (_build_creation_or_update_request [("name", PyVal.str "x"),
      ("assets", PyVal.list [])] = .ok [("name", PyVal.str "x")]) ∧
    (_build_creation_or_update_request [("name", PyVal.str "x"),
      ("credentials", PyVal.list [])] = .ok [("name", PyVal.str "x")]) ∧
    (∀ ids : List Int, ids ≠ [] →
      _build_creation_or_update_request [("name", PyVal.str "x"),
        ("assets", PyVal.list (ids.map PyVal.int))] =
      .ok [("name", PyVal.str "x"),
        ("assets", PyVal.list (ids.map fun i => PyVal.dict [("id", PyVal.int i)]))]) ∧
    (∀ ids : List Int, ids ≠ [] →
      _build_creation_or_update_request [("name", PyVal.str "x"),
        ("credentials", PyVal.list (ids.map PyVal.int))] =
      .ok [("name", PyVal.str "x"),
        ("credentials", PyVal.list (ids.map fun i => PyVal.dict [("id", PyVal.int i)]))]) ∧
    (∀ rs : List (Int × String), rs ≠ [] →
      (∀ p ∈ rs, p.2 ∈ reportSourceChoices) →
      _build_creation_or_update_request [("name", PyVal.str "x"),
        ("reports", PyVal.list (rs.map fun p =>
          PyVal.tuple [PyVal.int p.1, PyVal.str p.2]))] =
      .ok [("name", PyVal.str "x"),
        ("reports", PyVal.list (rs.map fun p =>
          PyVal.dict [("id", PyVal.int p.1), ("reportSource", PyVal.str p.2)]))]) := by
  refine ⟨rfl, rfl, rfl, ?_, ?_, ?_⟩
  · intro ids hne
    change Bind.bind (idListPart "assets" "asset"
      (some (PyVal.list (ids.map PyVal.int)))) _ = _
    rw [idListPart_ints "assets" "asset" ids hne]
    rfl
  · intro ids hne
    change Bind.bind (idListPart "credentials" "credentials"
      (some (PyVal.list (ids.map PyVal.int)))) _ = _
    rw [idListPart_ints "credentials" "credentials" ids hne]
    rfl
  · intro rs hne hsrc
    change Bind.bind (reportsPart (some (PyVal.list
      (rs.map fun p => PyVal.tuple [PyVal.int p.1, PyVal.str p.2])))) _ = _
    rw [reportsPart_pairs rs hne hsrc]
    rfl

/-- Closed instances of C6's non-empty cases. -/
theorem empty_collections_suppress_key_witness :
    _build_creation_or_update_request [("name", PyVal.str "x"),
      ("assets", PyVal.list [PyVal.int 2])] =
      .ok [("name", PyVal.str "x"),
        ("assets", PyVal.list [PyVal.dict [("id", PyVal.int 2)]])] ∧
    _build_creation_or_update_request [("name", PyVal.str "x"),
      ("credentials", PyVal.list [PyVal.int 4])] =
      .ok [("name", PyVal.str "x"),
        ("credentials", PyVal.list [PyVal.dict [("id", PyVal.int 4)]])] ∧
    _build_creation_or_update_request [("name", PyVal.str "x"),
      ("reports", PyVal.list [PyVal.tuple [PyVal.int 1, PyVal.str "cumulative"]])] =
      .ok [("name", PyVal.str "x"), ("reports", PyVal.list
        [PyVal.dict [("id", PyVal.int 1), ("reportSource", PyVal.str "cumulative")]])] :=
  ⟨empty_collections_suppress_key.2.2.2.1 [2] (by decide),
   empty_collections_suppress_key.2.2.2.2.1 [4] (by decide),
   empty_collections_suppress_key.2.2.2.2.2 [(1, "cumulative")] (by decide) (by decide)⟩

/-- C2: for each enumerated field, an out-of-set string value fails with a
validation error naming the field and its allowed set, and an in-set value
is passed through to the output unchanged. -/
theorem enum_fields_validated (s : String) :
    (s ∉ scheduleChoices →
      _build_creation_or_update_request [("name", PyVal.str "n"),
        ("schedule_type", PyVal.str s)] =
      .error (.unexpectedValue "schedule_type" scheduleChoices)) ∧
    (s ∈ scheduleChoices →
      _build_creation_or_update_request [("name", PyVal.str "n"),
        ("schedule_type", PyVal.str s)] =
      .ok [("name", PyVal.str "n"),
        ("schedule", PyVal.dict [("type", PyVal.str s)])]) ∧
    (s ∉ timeoutActionChoices →
      _build_creation_or_update_request [("name", PyVal.str "n"),
        ("timeoutAction", PyVal.str s)] =
      .error (.unexpectedValue "timeoutAction" timeoutActionChoices)) ∧
    (s ∈ timeoutActionChoices →
      _build_creation_or_update_request [("name", PyVal.str "n"),
        ("timeoutAction", PyVal.str s)] =
      .ok [("name", PyVal.str "n"), ("timeoutAction", PyVal.str s)]) ∧
    (s ∉ rolloverTypeChoices →
      _build_creation_or_update_request [("name", PyVal.str "n"),
        ("rolloverType", PyVal.str s)] =
      .error (.unexpectedValue "rolloverType" rolloverTypeChoices)) ∧
    (s ∈ rolloverTypeChoices →
      _build_creation_or_update_request [("name", PyVal.str "n"),
        ("rolloverType", PyVal.str s)] =
      .ok [("name", PyVal.str "n"), ("rolloverType", PyVal.str s)]) ∧
    (s ∉ reportSourceChoices →
      _build_creation_or_update_request [("name", PyVal.str "n"),
        ("reports", PyVal.list [PyVal.tuple [PyVal.int 1, PyVal.str "cumulative"],
          PyVal.tuple [PyVal.int 2, PyVal.str s]])] =
      .error (.unexpectedValue "reportSource" reportSourceChoices)) ∧
    (s ∈ reportSourceChoices →
      _build_creation_or_update_request [("name", PyVal.str "n"),
        ("reports", PyVal.list [PyVal.tuple [PyVal.int 1, PyVal.str "cumulative"],
          PyVal.tuple [PyVal.int 2, PyVal.str s]])] =
      .ok [("name", PyVal.str "n"), ("reports", PyVal.list
        [PyVal.dict [("id", PyVal.int 1), ("reportSource", PyVal.str "cumulative")],
         PyVal.dict [("id", PyVal.int 2), ("reportSource", PyVal.str s)]])]) := by
  refine ⟨?_, ?_, ?_, ?_, ?_, ?_, ?_, ?_⟩
  · intro hs
    have hmem : strMem s scheduleChoices = false := by
      rw [Bool.eq_false_iff]
      intro hc
      exact hs (strMem_iff.mp hc)
    change Bind.bind (Bind.bind
      (_check "schedule_type" (PyVal.str s) .str (some scheduleChoices)) _) _ = _
    rw [check_str_fail hmem]
    rfl
  · intro hs
    have hmem : strMem s scheduleChoices = true := strMem_iff.mpr hs
    change Bind.bind (Bind.bind
      (_check "schedule_type" (PyVal.str s) .str (some scheduleChoices)) _) _ = _
    rw [check_str_pass hmem]
    rfl
  · intro hs
    have hmem : strMem s timeoutActionChoices = false := by
      rw [Bool.eq_false_iff]
      intro hc
      exact hs (strMem_iff.mp hc)
    change Bind.bind (Bind.bind
      (_check "timeoutAction" (PyVal.str s) .str (some timeoutActionChoices)) _) _ = _
    rw [check_str_fail hmem]
    rfl
  · intro hs
    have hmem : strMem s timeoutActionChoices = true := strMem_iff.mpr hs
    change Bind.bind (Bind.bind
      (_check "timeoutAction" (PyVal.str s) .str (some timeoutActionChoices)) _) _ = _
    rw [check_str_pass hmem]
    rfl
  · intro hs
    have hmem : strMem s rolloverTypeChoices = false := by
      rw [Bool.eq_false_iff]
      intro hc
      exact hs (strMem_iff.mp hc)
    change Bind.bind (Bind.bind
      (_check "rolloverType" (PyVal.str s) .str (some rolloverTypeChoices)) _) _ = _
    rw [check_str_fail hmem]
    rfl
  · intro hs
    have hmem : strMem s rolloverTypeChoices = true := strMem_iff.mpr hs
    change Bind.bind (Bind.bind
      (_check "rolloverType" (PyVal.str s) .str (some rolloverTypeChoices)) _) _ = _
    rw [check_str_pass hmem]
    rfl
  · intro hs
    have hmem : strMem s reportSourceChoices = false := by
      rw [Bool.eq_false_iff]
      intro hc
      exact hs (strMem_iff.mp hc)
    change Bind.bind (Bind.bind (Bind.bind (Bind.bind
      (_check "reportSource" (PyVal.str s) .str (some reportSourceChoices)) _) _) _) _ = _
    rw [check_str_fail hmem]
    rfl
  · intro hs
    have hmem : strMem s reportSourceChoices = true := strMem_iff.mpr hs
    change Bind.bind (Bind.bind (Bind.bind (Bind.bind
      (_check "reportSource" (PyVal.str s) .str (some reportSourceChoices)) _) _) _) _ = _
    rw [check_str_pass hmem]
    rfl

/-- Closed instances of C2: a bad and a good value for each enum field. -/
theorem enum_fields_validated_witness :
    _build_creation_or_update_request [("name", PyVal.str "n"),
      ("schedule_type", PyVal.str "bogus")] =
      .error (.unexpectedValue "schedule_type" scheduleChoices) ∧
    _build_creation_or_update_request [("name", PyVal.str "n"),
      ("schedule_type", PyVal.str "ical")] =
      .ok [("name", PyVal.str "n"), ("schedule", PyVal.dict [("type", PyVal.str "ical")])] ∧
    _build_creation_or_update_request [("name", PyVal.str "n"),
      ("timeoutAction", PyVal.str "bogus")] =
      .error (.unexpectedValue "timeoutAction" timeoutActionChoices) ∧
    _build_creation_or_update_request [("name", PyVal.str "n"),
      ("timeoutAction", PyVal.str "discard")] =
      .ok [("name", PyVal.str "n"), ("timeoutAction", PyVal.str "discard")] ∧
    _build_creation_or_update_request [("name", PyVal.str "n"),
      ("rolloverType", PyVal.str "bogus")] =
      .error (.unexpectedValue "rolloverType" rolloverTypeChoices) ∧
    _build_creation_or_update_request [("name", PyVal.str "n"),
      ("rolloverType", PyVal.str "nextDay")] =
      .ok [("name", PyVal.str "n"), ("rolloverType", PyVal.str "nextDay")] ∧
    _build_creation_or_update_request [("name", PyVal.str "n"),
      ("reports", PyVal.list [PyVal.tuple [PyVal.int 1, PyVal.str "cumulative"],
        PyVal.tuple [PyVal.int 2, PyVal.str "bogus"]])] =
      .error (.unexpectedValue "reportSource" reportSourceChoices) ∧
    _build_creation_or_update_request [("name", PyVal.str "n"),
      ("reports", PyVal.list [PyVal.tuple [PyVal.int 1, PyVal.str "cumulative"],
        PyVal.tuple [PyVal.int 2, PyVal.str "patched"]])] =
      .ok [("name", PyVal.str "n"), ("reports", PyVal.list
        [PyVal.dict [("id", PyVal.int 1), ("reportSource", PyVal.str "cumulative")],
         PyVal.dict [("id", PyVal.int 2), ("reportSource", PyVal.str "patched")]])] :=
  ⟨(enum_fields_validated "bogus").1 (by decide),
   (enum_fields_validated "ical").2.1 (by decide),
   (enum_fields_validated "bogus").2.2.1 (by decide),
   (enum_fields_validated "discard").2.2.2.1 (by decide),
   (enum_fields_validated "bogus").2.2.2.2.1 (by decide),
   (enum_fields_validated "nextDay").2.2.2.2.2.1 (by decide),
   (enum_fields_validated "bogus").2.2.2.2.2.2.1 (by decide),
   (enum_fields_validated "patched").2.2.2.2.2.2.2 (by decide)⟩

/-- C4: in every request body the builder produces, the values at
`repository`/`zone` are `{"id": <string>}` objects, and the values at
`classifyMitigatedAge`/`maxScanTime` are strings, while every `reports`
element keeps a Python-int `id` next to its string `reportSource` and every
`assets`/`credentials` element keeps a Python-int `id`; `str` of an integer
is its decimal form, and `repository_id=5` concretely yields
`{"repository": {"id": "5"}}`. -/
theorem identifier_fields_serialized_as_strings (kwargs req : List (String × PyVal))
    (h : _build_creation_or_update_request kwargs = .ok req) :
    (∀ v, ("repository", v) ∈ req → ∃ w, v = PyVal.dict [("id", PyVal.str (pyStr w))]) ∧
    (∀ v, ("zone", v) ∈ req → ∃ w, v = PyVal.dict [("id", PyVal.str (pyStr w))]) ∧
    (∀ v, ("classifyMitigatedAge", v) ∈ req → ∃ t, v = PyVal.str t) ∧
    (∀ v, ("maxScanTime", v) ∈ req → ∃ t, v = PyVal.str t) ∧
    (∀ v, ("reports", v) ∈ req → ∃ items, v = PyVal.list items ∧ ∀ it ∈ items,
      ∃ idv t, it = PyVal.dict [("id", idv), ("reportSource", PyVal.str t)] ∧
        isinstance idv .int = true) ∧
    (∀ v, ("assets", v) ∈ req → ∃ items, v = PyVal.list items ∧ ∀ it ∈ items,
      ∃ idv, it = PyVal.dict [("id", idv)] ∧ isinstance idv .int = true) ∧
    (∀ v, ("credentials", v) ∈ req → ∃ items, v = PyVal.list items ∧ ∀ it ∈ items,
      ∃ idv, it = PyVal.dict [("id", idv)] ∧ isinstance idv .int = true) ∧
    (∀ n : Int, pyStr (PyVal.int n) = toString n) ∧
    _build_creation_or_update_request
      [("name", PyVal.str "x"), ("repository_id", PyVal.int 5)] =
      .ok [("name", PyVal.str "x"),
        ("repository", PyVal.dict [("id", PyVal.str "5")])] := by
  refine ⟨?_, ?_, ?_, ?_, ?_, ?_, ?_, fun n => rfl, rfl⟩
  · intro v hv
    have hc := build_mem_cases h hv
    simp at hc
    obtain ⟨w, hw, hvv⟩ := hc
    exact ⟨w, hvv⟩
  · intro v hv
    have hc := build_mem_cases h hv
    simp at hc
    obtain ⟨w, hw, hvv⟩ := hc
    exact ⟨w, hvv⟩
  · intro v hv
    have hc := build_mem_cases h hv
    simp at hc
    obtain ⟨w, hw, hvv⟩ := hc
    exact ⟨pyStr w, hvv⟩
  · intro v hv
    have hc := build_mem_cases h hv
    simp at hc
    obtain ⟨w, hw, hvv⟩ := hc
    exact ⟨pyStr w, hvv⟩
  · intro v hv
    have hc := build_mem_cases h hv
    simp at hc
    obtain ⟨_, items, hvv, hall⟩ := hc
    refine ⟨items, hvv, fun it hit => ?_⟩
    obtain ⟨idv, t, hshape, hint, _⟩ := hall it hit
    exact ⟨idv, t, hshape, hint⟩
  · intro v hv
    have hc := build_mem_cases h hv
    simp at hc
    obtain ⟨_, items, hvv, hall⟩ := hc
    exact ⟨items, hvv, hall⟩
  · intro v hv
    have hc := build_mem_cases h hv
    simp at hc
    obtain ⟨_, items, hvv, hall⟩ := hc
    exact ⟨items, hvv, hall⟩

/-- Closed instance of C4 at `repository_id = 5`. -/
theorem identifier_fields_serialized_witness :
    ∃ w, PyVal.dict [("id", PyVal.str "5")] = PyVal.dict [("id", PyVal.str (pyStr w))] :=
  (identifier_fields_serialized_as_strings
    [("name", PyVal.str "x"), ("repository_id", PyVal.int 5)]
    [("name", PyVal.str "x"), ("repository", PyVal.dict [("id", PyVal.str "5")])]
    rfl).1 (PyVal.dict [("id", PyVal.str "5")])
    (List.mem_cons_of_mem _ (List.mem_cons_self _ _))

/-- C8: `delete` returns the full decoded JSON body of the transport call,
with no `["response"]` extraction, while `create`, `list`, `details` and
`edit` each return the `"response"` entry of the decoded body. -/
theorem delete_returns_raw_body :
    (∀ (api : Api) (sid : PyVal),
      delete api sid = .ok (api ⟨.delete, "wasScan/" ++ pyStr sid, [], Option.none⟩)) ∧
    (∀ (api : Api) (kwargs req : List (String × PyVal)),
      _build_creation_or_update_request kwargs = .ok req →
      create api kwargs =
        pyGetItemStr (api ⟨.post, "wasScan", [], some req⟩) "response") ∧
    (∀ (api : Api) (sid : PyVal) (kwargs req : List (String × PyVal)),
      _build_creation_or_update_request kwargs = .ok req →
      edit api sid kwargs =
        pyGetItemStr (api ⟨.patch, "wasScan/" ++ pyStr sid, [], some req⟩) "response") ∧
    (∀ api : Api,
      list api PyVal.none =
        pyGetItemStr (api ⟨.get, "wasScan", [], Option.none⟩) "response") ∧
    (∀ (api : Api) (sid : PyVal),
      details api sid PyVal.none =
        pyGetItemStr (api ⟨.get, "wasScan/" ++ pyStr sid, [], Option.none⟩) "response") := by
  refine ⟨fun api sid => rfl, ?_, ?_, fun api => rfl, fun api sid => rfl⟩
  · intro api kwargs req h
    show Bind.bind (_build_creation_or_update_request kwargs) _ = _
    rw [h]
    rfl
  · intro api sid kwargs req h
    show Bind.bind (_build_creation_or_update_request kwargs) _ = _
    rw [h]
    rfl

/-- Closed instance of C8: on a body with a `response` key and another key,
`delete` returns the whole body while `create` returns only the `response`
value. -/
theorem delete_returns_raw_body_witness :
    delete (fun _ => PyVal.dict [("response", PyVal.str "inner"),
      ("error_code", PyVal.int 0)]) (PyVal.str "7") =
      .ok (PyVal.dict [("response", PyVal.str "inner"), ("error_code", PyVal.int 0)]) ∧
    create (fun _ => PyVal.dict [("response", PyVal.str "inner"),
      ("error_code", PyVal.int 0)]) [("name", PyVal.str "a")] =
      .ok (PyVal.str "inner") :=
  ⟨delete_returns_raw_body.1
    (fun _ => PyVal.dict [("response", PyVal.str "inner"), ("error_code", PyVal.int 0)])
    (PyVal.str "7"),
  delete_returns_raw_body.2.1
    (fun _ => PyVal.dict [("response", PyVal.str "inner"), ("error_code", PyVal.int 0)])
    [("name", PyVal.str "a")] [("name", PyVal.str "a")] rfl⟩

/-- C9: keyword names outside the recognized set are silently ignored — the
build result is unchanged when the keyword list is filtered down to the
recognized names — and every key of a successful output derives from a
recognized keyword that was actually supplied. -/
theorem unrecognized_keys_ignored :
    (∀ kwargs : List (String × PyVal),
      _build_creation_or_update_request (kwargs.filter fun p => recognizedB p.1) =
        _build_creation_or_update_request kwargs) ∧
    (∀ kwargs req : List (String × PyVal),
      _build_creation_or_update_request kwargs = .ok req →
      ∀ k ∈ req.map Prod.fst, ∃ src, recognizedB src = true ∧ derivedKey src = k ∧
        (pyLookup src kwargs).isSome = true) := by
  constructor
  · intro kwargs
    unfold _build_creation_or_update_request
    rw [pyLookup_filter "name" (by decide) kwargs,
      pyLookup_filter "type" (by decide) kwargs,
      pyLookup_filter "description" (by decide) kwargs,
      pyLookup_filter "repository_id" (by decide) kwargs,
      pyLookup_filter "zone_id" (by decide) kwargs,
      pyLookup_filter "dhcpTracking" (by decide) kwargs,
      pyLookup_filter "classifyMitigatedAge" (by decide) kwargs,
      pyLookup_filter "schedule_type" (by decide) kwargs,
      pyLookup_filter "reports" (by decide) kwargs,
      pyLookup_filter "assets" (by decide) kwargs,
      pyLookup_filter "credentials" (by decide) kwargs,
      pyLookup_filter "emailOnLaunch" (by decide) kwargs,
      pyLookup_filter "emailOnFinish" (by decide) kwargs,
      pyLookup_filter "timeoutAction" (by decide) kwargs,
      pyLookup_filter "scanningVirtualHosts" (by decide) kwargs,
      pyLookup_filter "rolloverType" (by decide) kwargs,
      pyLookup_filter "urlList" (by decide) kwargs,
      pyLookup_filter "maxScanTime" (by decide) kwargs]
  · intro kwargs req h k hk
    obtain ⟨a, ha, hak⟩ := List.mem_map.mp hk
    subst hak
    have hc := build_mem_cases h ha
    rcases hc with ⟨hk1, hs, _⟩ | ⟨hk1, hs, _⟩ | ⟨hk1, hs, _⟩ | ⟨hk1, w, hw, _⟩ |
      ⟨hk1, w, hw, _⟩ | ⟨hk1, hs, _⟩ | ⟨hk1, w, hw, _⟩ | ⟨hk1, hs, _⟩ | ⟨hk1, hs, _⟩ |
      ⟨hk1, hs, _⟩ | ⟨hk1, hs, _⟩ | ⟨hk1, hs, _⟩ | ⟨hk1, hs, _⟩ | ⟨hk1, hs, _⟩ |
      ⟨hk1, hs, _⟩ | ⟨hk1, hs, _⟩ | ⟨hk1, hs, _⟩ | ⟨hk1, w, hw, _⟩
    exacts [⟨"name", by decide, by rw [hk1]; decide, hs⟩,
      ⟨"type", by decide, by rw [hk1]; decide, hs⟩,
      ⟨"description", by decide, by rw [hk1]; decide, hs⟩,
      ⟨"repository_id", by decide, by rw [hk1]; decide, by rw [hw]; rfl⟩,
      ⟨"zone_id", by decide, by rw [hk1]; decide, by rw [hw]; rfl⟩,
      ⟨"dhcpTracking", by decide, by rw [hk1]; decide, hs⟩,
      ⟨"classifyMitigatedAge", by decide, by rw [hk1]; decide, by rw [hw]; rfl⟩,
      ⟨"schedule_type", by decide, by rw [hk1]; decide, hs⟩,
      ⟨"reports", by decide, by rw [hk1]; decide, hs⟩,
      ⟨"assets", by decide, by rw [hk1]; decide, hs⟩,
      ⟨"credentials", by decide, by rw [hk1]; decide, hs⟩,
      ⟨"emailOnLaunch", by decide, by rw [hk1]; decide, hs⟩,
      ⟨"emailOnFinish", by decide, by rw [hk1]; decide, hs⟩,
      ⟨"timeoutAction", by decide, by rw [hk1]; decide, hs⟩,
      ⟨"scanningVirtualHosts", by decide, by rw [hk1]; decide, hs⟩,
      ⟨"rolloverType", by decide, by rw [hk1]; decide, hs⟩,
      ⟨"urlList", by decide, by rw [hk1]; decide, hs⟩,
      ⟨"maxScanTime", by decide, by rw [hk1]; decide, by rw [hw]; rfl⟩]

/-- Closed instance of C9: an unrecognized `junk` key is ignored and the
only output key derives from the supplied `name`. -/
theorem unrecognized_keys_ignored_witness :
    _build_creation_or_update_request
      ([("name", PyVal.str "x"), ("junk", PyVal.int 1)].filter fun p => recognizedB p.1) =
      _build_creation_or_update_request [("name", PyVal.str "x"), ("junk", PyVal.int 1)] ∧
    ∃ src, recognizedB src = true ∧ derivedKey src = "name" ∧
      (pyLookup src [("name", PyVal.str "x"), ("junk", PyVal.int 1)]).isSome = true :=
  ⟨unrecognized_keys_ignored.1 [("name", PyVal.str "x"), ("junk", PyVal.int 1)],
   unrecognized_keys_ignored.2 [("name", PyVal.str "x"), ("junk", PyVal.int 1)]
     [("name", PyVal.str "x")] rfl "name" (by decide)⟩

end WasScan
